import Mathlib

/-!
Verification development for the `funnel-optimization-project` utility module
(`src/python/utils.py`): a thin wrapper over a MySQL connection offering
query / non-query / script execution, plus two free functions: one validates
the structure of a tabular result, the other serializes results to a file.

The Python code is shallowly embedded: strings processed character-wise are
modelled as `List Char`, environment lookup as `String → Option String`,
the external database driver as an abstract per-statement executor
`List Char → Except String Unit`, and the filesystem as a trace of actions.
Exceptions become `Except` / `Option` error values; logging becomes a list of
structured log events.
-/

/-! ## Python string primitives used by `utils.py` -/

/-- The whitespace characters removed by the Python method `str.strip()` (ASCII range,
as used by the SQL scripts this module processes). -/
def isPySpace (c : Char) : Bool :=
  c == ' ' || c == '\t' || c == '\n' || c == '\r' || c == '\x0b' || c == '\x0c'

/-- Python `str.strip()`: drop leading and trailing whitespace. -/
def pyStrip (l : List Char) : List Char :=
  ((l.dropWhile isPySpace).reverse.dropWhile isPySpace).reverse

/-- Python `line.split('--')[0]`: the part of the line before the first
occurrence of `--` (the whole line if there is none). -/
def beforeComment : List Char → List Char
  | [] => []
  | [c] => [c]
  | c1 :: c2 :: rest =>
    if c1 = '-' ∧ c2 = '-' then [] else c1 :: beforeComment (c2 :: rest)

/-- Python `line.strip().startswith('--')` applied to an already-stripped
line: does the line begin with two dashes? -/
def startsDashDash : List Char → Bool
  | '-' :: '-' :: _ => true
  | _ => false

/-- Python `s.split('\n')` at character level. -/
def splitOnNewlineAux : List Char → List Char → List (List Char)
  | acc, [] => [acc.reverse]
  | acc, c :: rest =>
    if c = '\n' then acc.reverse :: splitOnNewlineAux [] rest
    else splitOnNewlineAux (c :: acc) rest

/-- Python `s.split('\n')`. -/
def splitOnNewline (content : List Char) : List (List Char) :=
  splitOnNewlineAux [] content

/-! ## Script statement splitting (`DatabaseConnection.execute_script`,
`src/python/utils.py` lines 125-144) -/

/-- The statement-splitting loop of `execute_script`: first argument is the
`current_statement` accumulator (lines of the statement being built), second
the remaining lines of the script.  Comment-only lines are skipped; a line is
appended to the current statement when it is non-empty after removing its
inline comment; when that comment-free text ends in `;` the accumulated lines
are joined with newlines and kept if non-blank.  A trailing accumulator left
at end of input is discarded. -/
def splitAux : List (List Char) → List (List Char) → List (List Char)
  | _, [] => []
  | cur, l :: rest =>
    if startsDashDash (pyStrip l) then
      splitAux cur rest
    else
      let lw := pyStrip (beforeComment l)
      if lw = [] then
        splitAux cur rest
      else if lw.getLast? = some ';' then
        (let stmt := List.intercalate ['\n'] (cur ++ [l])
         if pyStrip stmt = [] then [] else [stmt]) ++ splitAux [] rest
      else
        splitAux (cur ++ [l]) rest

/-- The split of the script text into statements performed by
`execute_script` (`src/python/utils.py` lines 125-144). -/
def split_statements (content : List Char) : List (List Char) :=
  splitAux [] (splitOnNewline content)

/-! ## Script execution (`DatabaseConnection.execute_script`,
`src/python/utils.py` lines 146-158) -/

/-- Log events emitted by `execute_script`: a warning for statement `i`
(1-based) carrying the error text truncated to 100 characters
(`str(e)[:100]`), and the completion line carrying the script path and the
number of statements. -/
inductive ScriptLog
  | warning (i : Nat) (msg : String)
  | completed (path : String) (count : Nat)
deriving DecidableEq

/-- The per-statement loop of `execute_script`: `ex` abstracts the database
driver call `conn.execute(text(statement)); conn.commit()`, `i` is the
1-based index of the first remaining statement.  Returns each statement paired
with its success flag, together with the warning logs: a failing statement is
caught, logged with its error message truncated to 100 characters, and the
loop continues with the next statement. -/
def execStatementsAux (ex : List Char → Except String Unit) :
    Nat → List (List Char) → List (List Char × Bool) × List ScriptLog
  | _, [] => ([], [])
  | i, s :: rest =>
    let tail := execStatementsAux ex (i + 1) rest
    match ex s with
    | .ok _ => ((s, true) :: tail.1, tail.2)
    | .error e => ((s, false) :: tail.1, ScriptLog.warning i (e.take 100) :: tail.2)

/-- Model of `execute_script` (`src/python/utils.py` lines 112-158), with
the file read abstracted into the `content` argument and the driver into `ex`.  It
splits the content into statements, attempts every statement (per-statement
failures only add a warning log), then logs completion with the statement
count; no per-statement error escapes to the caller. -/
def execute_script (ex : List Char → Except String Unit) (content : List Char)
    (path : String) : Except String (List (List Char × Bool) × List ScriptLog) :=
  let stmts := split_statements content
  let r := execStatementsAux ex 1 stmts
  .ok (r.1, r.2 ++ [ScriptLog.completed path stmts.length])

/-! ## Connection construction (`DatabaseConnection.__init__` and `_connect`,
`src/python/utils.py` lines 28-68) -/

/-- The configuration fields read from the environment by
`DatabaseConnection.__init__`. -/
structure DBConfig where
  host : String
  port : String
  user : String
  password : String
  database : String
deriving DecidableEq

/-- Side effects of `_connect`: building the connection string, creating the
SQLAlchemy engine from it, and the connect log line naming the database. -/
inductive InitEvent
  | builtConnectionString (s : String)
  | createdEngine (s : String)
  | logConnected (db : String)
deriving DecidableEq

/-- Model of `DatabaseConnection.__init__` followed by `_connect`
(`src/python/utils.py` lines 28-68).  `env` abstracts `os.getenv` after the
`.env` file has been loaded; `quote_plus` abstracts
`urllib.parse.quote_plus`, the library percent-encoder applied to the
password.  Host, port, user and database fall back to defaults; the password
has none, and a missing or empty password (the Python test `if not self.password`)
raises before any connection string is built or engine created, so the event
trace is empty in that case. -/
def db_init (quote_plus : String → String) (env : String → Option String) :
    List InitEvent × Except String DBConfig :=
  let host := (env "DB_HOST").getD "localhost"
  let port := (env "DB_PORT").getD "3306"
  let user := (env "DB_USER").getD "root"
  let password := (env "DB_PASSWORD").getD ""
  let database := (env "DB_NAME").getD "funnel_project"
  if password = "" then
    ([], .error "DB_PASSWORD not found in environment variables")
  else
    let connection_string :=
      "mysql+pymysql://" ++ user ++ ":" ++ quote_plus password ++ "@" ++
        host ++ ":" ++ port ++ "/" ++ database
    ([.builtConnectionString connection_string, .createdEngine connection_string,
      .logConnected database],
     .ok ⟨host, port, user, password, database⟩)

/-! ## Tabular results and `validate_dataframe`
(`src/python/utils.py` lines 184-213) -/

/-- One cell of a tabular result: either a null (pandas NaN) or a value. -/
inductive Cell
  | null
  | val (s : String)
deriving DecidableEq

/-- A pandas DataFrame, the Tabular Result of the spec: an ordered list of named
columns and the rows of cells. -/
structure DataFrame where
  columns : List String
  rows : List (List Cell)
deriving DecidableEq

/-- Python `df.isnull().sum()` for one column: the number of rows whose
cell in column `j` is null. -/
def colNullCount (df : DataFrame) (j : Nat) : Nat :=
  (df.rows.filter (fun r => r.getD j Cell.null = Cell.null)).length

/-- Python `df.isnull().sum()`: per-column null counts, in column order. -/
def null_counts (df : DataFrame) : List (String × Nat) :=
  df.columns.enum.map (fun p => (p.2, colNullCount df p.1))

/-- Log events emitted by `validate_dataframe`. -/
inductive ValLog
  | header (name : String)
  | shape (nrows ncols : Nat)
  | columnsLog (cols : List String)
  | memoryUsage
  | allExpectedPresent
  | nullWarning (counts : List (String × Nat))
  | noNulls
  | footer
deriving DecidableEq

/-- The `expected_cols` check of `validate_dataframe` (lines 200-204).
the Python test `if expected_cols:` is false for `None` and for the empty list, so
both skip the check; otherwise the set difference expected − actual is
computed and a non-empty difference raises with exactly that set. -/
def checkExpected (df : DataFrame) (expected_cols : Option (List String)) :
    Except (Finset String) (List ValLog) :=
  match expected_cols with
  | none => .ok []
  | some ec =>
    if ec.isEmpty then .ok []
    else
      let missing := ec.toFinset \ df.columns.toFinset
      if missing = ∅ then .ok [ValLog.allExpectedPresent] else .error missing

/-- The null-value report of `validate_dataframe` (lines 206-211): a warning
listing the columns with non-zero null counts when any exist, an all-clear
log otherwise. -/
def nullLogs (df : DataFrame) : List ValLog :=
  let nc := null_counts df
  if 0 < (nc.map Prod.snd).sum then
    [ValLog.nullWarning (nc.filter (fun p => 0 < p.2))]
  else
    [ValLog.noNulls]

/-- Model of `validate_dataframe` (`src/python/utils.py` lines 184-213) in
state-passing form: the returned DataFrame is the table after the call (the
Python body only calls observational pandas methods), alongside either the
`SchemaError` naming the missing columns or the emitted logs. -/
def validate_dataframe (df : DataFrame) (name : String)
    (expected_cols : Option (List String)) :
    DataFrame × Except (Finset String) (List ValLog) :=
  let logs1 := [ValLog.header name, ValLog.shape df.rows.length df.columns.length,
                ValLog.columnsLog df.columns, ValLog.memoryUsage]
  match checkExpected df expected_cols with
  | .error m => (df, .error m)
  | .ok l => (df, .ok (logs1 ++ l ++ nullLogs df ++ [ValLog.footer]))

/-! ## `save_results` (`src/python/utils.py` lines 216-241) -/

/-- The runtime kind of the `data` argument of `save_results`, matching its
`isinstance` dispatch: a pandas DataFrame, a dict, or anything else. -/
inductive PyData
  | dataframe (df : DataFrame)
  | dict
  | other
deriving DecidableEq

/-- Filesystem actions performed by `save_results`: creating the parent
directories of the destination, and writing the file in one of the three
formats. -/
inductive FsAction
  | makedirsParentOf (p : String)
  | writeCsv (p : String)
  | writeParquet (p : String)
  | writeJson (p : String)
deriving DecidableEq

/-- Does this filesystem action write a file at path `p`? -/
def writesTo (a : FsAction) (p : String) : Bool :=
  match a with
  | .makedirsParentOf _ => false
  | .writeCsv q => q = p
  | .writeParquet q => q = p
  | .writeJson q => q = p

/-- Model of `save_results` (`src/python/utils.py` lines 216-241): ensures the parent
directory exists, then dispatches on the runtime kind of the data.  A DataFrame is
written as csv or parquet, any other format raising; a dict is written as
2-space-indented json with the `file_format` argument never consulted; any
other data kind raises.  Returns the filesystem actions performed and the
error, if any. -/
def save_results (data : PyData) (path : String) (file_format : String) :
    List FsAction × Option String :=
  let pre := [FsAction.makedirsParentOf path]
  match data with
  | .dataframe _ =>
    if file_format = "csv" then (pre ++ [.writeCsv path], none)
    else if file_format = "parquet" then (pre ++ [.writeParquet path], none)
    else (pre, some ("Unsupported format for DataFrame: " ++ file_format))
  | .dict => (pre ++ [.writeJson path], none)
  | .other => (pre, some "Unsupported data type")

/-! ## `get_table` (`src/python/utils.py` lines 160-175) -/

/-- The query string built by `get_table` and passed to `execute_query`.
the Python test `if limit:` is false for `None` and for `0`, so only a non-zero
limit appends a LIMIT clause. -/
def get_table_query (table_name : String) (limit : Option Int) : String :=
  let query := "SELECT * FROM " ++ table_name
  match limit with
  | none => query
  | some n => if n = 0 then query else query ++ " LIMIT " ++ toString n

/-- A line of a script triggers the semicolon branch of `splitAux` exactly
when it is not a comment-only line, is non-empty after removing its inline
comment, and that comment-free text ends in a semicolon. -/
def lineTerminates (l : List Char) : Bool :=
  if startsDashDash (pyStrip l) then false
  else
    let lw := pyStrip (beforeComment l)
    if lw = [] then false
    else decide (lw.getLast? = some ';')

/-! ## Helper lemmas about the splitting primitives -/

lemma pyStrip_eq_nil_iff (l : List Char) :
    pyStrip l = [] ↔ ∀ c ∈ l, isPySpace c := by
  unfold pyStrip
  rw [List.reverse_eq_nil_iff, List.dropWhile_eq_nil_iff]
  simp only [List.mem_reverse]
  constructor
  · intro h c hc
    rw [← List.takeWhile_append_dropWhile (p := isPySpace) (l := l)] at hc
    rcases List.mem_append.mp hc with h1 | h2
    · exact List.mem_takeWhile_imp h1
    · exact h c h2
  · intro h c hc
    exact h c ((List.dropWhile_sublist isPySpace).subset hc)

lemma mem_beforeComment : ∀ (l : List Char), ∀ c ∈ beforeComment l, c ∈ l := by
  intro l
  induction l with
  | nil => intro c hc; simp [beforeComment] at hc
  | cons c1 rest ih =>
    cases rest with
    | nil => intro c hc; simpa [beforeComment] using hc
    | cons c2 rest2 =>
      intro c hc
      by_cases h : c1 = '-' ∧ c2 = '-'
      · simp [beforeComment, h] at hc
      · rw [beforeComment, if_neg h] at hc
        rcases List.mem_cons.mp hc with rfl | hc2
        · exact List.mem_cons_self _ _
        · exact List.mem_cons_of_mem _ (ih c hc2)

/-- A line that is blank after stripping is also blank after removing its
inline comment and stripping. -/
lemma pyStrip_beforeComment_of_blank {l : List Char} (h : pyStrip l = []) :
    pyStrip (beforeComment l) = [] := by
  rw [pyStrip_eq_nil_iff] at h ⊢
  intro c hc
  exact h c (mem_beforeComment l c hc)

/-- Lines that are blank or comment-only produce no statements, whatever the
accumulator holds. -/
lemma splitAux_eq_nil_of_skip (lines : List (List Char))
    (h : ∀ l ∈ lines, pyStrip l = [] ∨ startsDashDash (pyStrip l) = true) :
    ∀ cur, splitAux cur lines = [] := by
  induction lines with
  | nil => intro cur; rfl
  | cons l rest ih =>
    intro cur
    have hrest : ∀ l2 ∈ rest, pyStrip l2 = [] ∨ startsDashDash (pyStrip l2) = true :=
      fun l2 hm => h l2 (List.mem_cons_of_mem _ hm)
    rcases h l (List.mem_cons_self _ _) with hblank | hcmt
    · have h1 : startsDashDash (pyStrip l) = false := by rw [hblank]; rfl
      have h2 : pyStrip (beforeComment l) = [] := pyStrip_beforeComment_of_blank hblank
      simp only [splitAux, h1, Bool.false_eq_true, if_false, h2, if_true]
      exact ih hrest cur
    · simp only [splitAux, hcmt, if_true]
      exact ih hrest cur

/-- Lines none of which triggers the semicolon branch produce no statements:
they only accumulate and the accumulator is discarded at end of input. -/
lemma splitAux_eq_nil_of_no_term (extra : List (List Char))
    (hx : ∀ l ∈ extra, lineTerminates l = false) :
    ∀ cur, splitAux cur extra = [] := by
  induction extra with
  | nil => intro cur; rfl
  | cons l rest ih =>
    intro cur
    have hrest : ∀ l2 ∈ rest, lineTerminates l2 = false :=
      fun l2 hm => hx l2 (List.mem_cons_of_mem _ hm)
    have hl := hx l (List.mem_cons_self _ _)
    by_cases h1 : startsDashDash (pyStrip l) = true
    · simp only [splitAux, h1, if_true]
      exact ih hrest cur
    · rw [Bool.not_eq_true] at h1
      by_cases h2 : pyStrip (beforeComment l) = []
      · simp only [splitAux, h1, Bool.false_eq_true, if_false, h2, if_true]
        exact ih hrest cur
      · have h3 : ¬ (pyStrip (beforeComment l)).getLast? = some ';' := by
          simp only [lineTerminates, h1, Bool.false_eq_true, if_false, h2, if_true] at hl
          exact of_decide_eq_false hl
        simp only [splitAux, h1, Bool.false_eq_true, if_false, h2, h3, if_true]
        exact ih hrest (cur ++ [l])

/-- Appending lines that never trigger the semicolon branch leaves the
statement list unchanged. -/
lemma splitAux_append_no_term (extra : List (List Char))
    (hx : ∀ l ∈ extra, lineTerminates l = false) :
    ∀ (lines : List (List Char)) (cur : List (List Char)),
      splitAux cur (lines ++ extra) = splitAux cur lines := by
  intro lines
  induction lines with
  | nil =>
    intro cur
    rw [List.nil_append]
    exact splitAux_eq_nil_of_no_term extra hx cur
  | cons l rest ih =>
    intro cur
    rw [List.cons_append]
    by_cases h1 : startsDashDash (pyStrip l) = true
    · simp only [splitAux, h1, if_true]
      exact ih cur
    · rw [Bool.not_eq_true] at h1
      by_cases h2 : pyStrip (beforeComment l) = []
      · simp only [splitAux, h1, Bool.false_eq_true, if_false, h2, if_true]
        exact ih cur
      · by_cases h3 : (pyStrip (beforeComment l)).getLast? = some ';'
        · simp only [splitAux, h1, Bool.false_eq_true, if_false, h2, if_false, h3, if_true]
          rw [ih []]
        · simp only [splitAux, h1, Bool.false_eq_true, if_false, h2, h3, if_false]
          exact ih (cur ++ [l])

/-! ## Claim theorems -/

/-- C1: Applied to the input text with an inline comment on the first line
and a comment-only third line, the splitting logic yields exactly three
statements in order: the full first line (inline comment retained in the
stored text, stripped only for semicolon detection), then the second and
fourth lines.  Moreover a comment-only line is always skipped, and a line
that is empty after comment removal never contributes to a statement. -/
theorem split_statements_example :
    split_statements ("SELECT 1; -- comment\nSELECT 2;\n-- full comment line\nSELECT 3;").data
      = [("SELECT 1; -- comment").data, ("SELECT 2;").data, ("SELECT 3;").data]
    ∧ (∀ (cur : List (List Char)) (l : List Char) (rest : List (List Char)),
        startsDashDash (pyStrip l) = true → splitAux cur (l :: rest) = splitAux cur rest)
    ∧ (∀ (cur : List (List Char)) (l : List Char) (rest : List (List Char)),
        pyStrip (beforeComment l) = [] → splitAux cur (l :: rest) = splitAux cur rest) := by
  refine ⟨by decide, ?_, ?_⟩
  · intro cur l rest h
    simp only [splitAux, h, if_true]
  · intro cur l rest h
    by_cases h1 : startsDashDash (pyStrip l) = true
    · simp only [splitAux, h1, if_true]
    · rw [Bool.not_eq_true] at h1
      simp only [splitAux, h1, Bool.false_eq_true, if_false, h, if_true]

/-- Witness for C1: a comment-only line and a blank line are each skipped on
a concrete input. -/
theorem split_statements_example_witness :
    splitAux [] [("-- note").data, ("SELECT 4;").data] = splitAux [] [("SELECT 4;").data]
    ∧ splitAux [] [("   ").data, ("SELECT 4;").data] = splitAux [] [("SELECT 4;").data] :=
  ⟨split_statements_example.2.1 [] ("-- note").data [("SELECT 4;").data] (by decide),
   split_statements_example.2.2 [] ("   ").data [("SELECT 4;").data] (by decide)⟩

/-- C2: a configuration with an absent or empty password makes construction
fail with the configuration error, with an empty side-effect trace (no
connection string built, no engine created); when the password is present the
other four fields fall back to "localhost", "3306", "root" and
"funnel_project". -/
theorem db_init_requires_password :
    (∀ (qp : String → String) (env : String → Option String),
        (env "DB_PASSWORD").getD "" = "" →
        db_init qp env = ([], Except.error "DB_PASSWORD not found in environment variables"))
    ∧ (∀ (qp : String → String) (env : String → Option String) (p : String),
        env "DB_PASSWORD" = some p → p ≠ "" →
        env "DB_HOST" = none → env "DB_PORT" = none →
        env "DB_USER" = none → env "DB_NAME" = none →
        (db_init qp env).2 =
          Except.ok ⟨"localhost", "3306", "root", p, "funnel_project"⟩) := by
  constructor
  · intro qp env h
    simp [db_init, h]
  · intro qp env p hp hpne hh hpo hu hn
    simp [db_init, hp, hpne, hh, hpo, hu, hn]

/-- Witness for C2: construction fails on the empty environment and, given
only a password, succeeds with all defaults. -/
theorem db_init_requires_password_witness :
    db_init id (fun _ => none)
      = ([], Except.error "DB_PASSWORD not found in environment variables")
    ∧ (db_init id (fun k => if k = "DB_PASSWORD" then some "hunter2" else none)).2 =
        Except.ok ⟨"localhost", "3306", "root", "hunter2", "funnel_project"⟩ :=
  ⟨db_init_requires_password.1 id (fun _ => none) rfl,
   db_init_requires_password.2 id (fun k => if k = "DB_PASSWORD" then some "hunter2" else none)
     "hunter2" (by decide) (by decide) (by decide) (by decide) (by decide) (by decide)⟩

/-- C6: a script whose lines are all blank or comment-only splits into zero
statements, and `execute_script` on it attempts nothing, raises nothing, and
logs completion with statement count zero. -/
theorem execute_script_comments_only (content : List Char)
    (h : ∀ l ∈ splitOnNewline content,
        pyStrip l = [] ∨ startsDashDash (pyStrip l) = true) :
    split_statements content = []
    ∧ ∀ (ex : List Char → Except String Unit) (path : String),
        execute_script ex content path = Except.ok ([], [ScriptLog.completed path 0]) := by
  have hs : split_statements content = [] :=
    splitAux_eq_nil_of_skip (splitOnNewline content) h []
  refine ⟨hs, fun ex path => ?_⟩
  simp [execute_script, hs, execStatementsAux]

/-- Witness for C6: a concrete script of comments and blank lines executes to
zero statements. -/
theorem execute_script_comments_only_witness :
    execute_script (fun _ => Except.ok ()) ("-- comments only\n\n   \n-- end").data "setup.sql"
      = Except.ok ([], [ScriptLog.completed "setup.sql" 0]) :=
  (execute_script_comments_only ("-- comments only\n\n   \n-- end").data (by decide)).2
    (fun _ => Except.ok ()) "setup.sql"

/-- C9: trailing lines forming an unterminated statement (none of them a
kept line whose comment-free text ends in a semicolon) are silently
discarded: the statement list is exactly that of the script without them, and
`execute_script` attempts only those statements, emitting no warning and no
error for the discarded text. -/
theorem trailing_unterminated_discarded (content : List Char)
    (lines extra : List (List Char))
    (hsplit : splitOnNewline content = lines ++ extra)
    (hext : ∀ l ∈ extra, lineTerminates l = false) :
    split_statements content = splitAux [] lines
    ∧ ∀ (ex : List Char → Except String Unit) (path : String),
        execute_script ex content path =
          Except.ok ((execStatementsAux ex 1 (splitAux [] lines)).1,
            (execStatementsAux ex 1 (splitAux [] lines)).2
              ++ [ScriptLog.completed path (splitAux [] lines).length]) := by
  have hs : split_statements content = splitAux [] lines := by
    unfold split_statements
    rw [hsplit]
    exact splitAux_append_no_term extra hext lines []
  exact ⟨hs, fun ex path => by simp [execute_script, hs]⟩

/-- Witness for C9: the unterminated trailing `SELECT 2` of a concrete script
is dropped from the statement list. -/
theorem trailing_unterminated_discarded_witness :
    split_statements ("SELECT 1;\nSELECT 2").data = [("SELECT 1;").data] :=
  (trailing_unterminated_discarded ("SELECT 1;\nSELECT 2").data
      [("SELECT 1;").data] [("SELECT 2").data] (by decide) (by decide)).1.trans (by decide)

/-- C10: `get_table` with limit 0 issues the same query as with no limit,
with no LIMIT clause, while any positive limit appends a LIMIT clause. -/
theorem get_table_limit_semantics :
    (∀ name : String, get_table_query name (some 0) = "SELECT * FROM " ++ name
      ∧ get_table_query name none = "SELECT * FROM " ++ name)
    ∧ ∀ (name : String) (n : Int), 0 < n →
        get_table_query name (some n) = "SELECT * FROM " ++ name ++ " LIMIT " ++ toString n := by
  refine ⟨fun name => ⟨by simp [get_table_query], rfl⟩, ?_⟩
  intro name n hn
  have hne : ¬ n = 0 := by omega
  simp [get_table_query, hne]

/-- Witness for C10: concrete queries for limit 0 and limit 5. -/
theorem get_table_limit_semantics_witness :
    get_table_query "events" (some 0) = "SELECT * FROM events"
    ∧ get_table_query "events" (some 5) = "SELECT * FROM events LIMIT 5" :=
  ⟨((get_table_limit_semantics.1 "events").1).trans (by decide),
   (get_table_limit_semantics.2 "events" 5 (by decide)).trans (by decide)⟩

/-! ## Helper lemmas about the per-statement execution loop -/

/-- Every statement is attempted, in order, whatever succeeds or fails. -/
lemma execAux_map_fst (ex : List Char → Except String Unit) :
    ∀ (stmts : List (List Char)) (i : Nat),
      (execStatementsAux ex i stmts).1.map Prod.fst = stmts := by
  intro stmts
  induction stmts with
  | nil => intro i; rfl
  | cons st rest ih =>
    intro i
    cases hx : ex st <;> simp [execStatementsAux, hx, ih]

/-- The recorded success flag of each attempted statement reflects the
outcome the driver reported for it. -/
lemma execAux_flag (ex : List Char → Except String Unit) :
    ∀ (stmts : List (List Char)) (i : Nat),
      ∀ q ∈ (execStatementsAux ex i stmts).1, (q.2 = true ↔ ex q.1 = Except.ok ()) := by
  intro stmts
  induction stmts with
  | nil => intro i q hq; simp [execStatementsAux] at hq
  | cons st rest ih =>
    intro i q hq
    cases hx : ex st with
    | ok u =>
      cases u
      rw [execStatementsAux] at hq
      simp only [hx] at hq
      rcases List.mem_cons.mp hq with rfl | hq2
      · simp [hx]
      · exact ih (i + 1) q hq2
    | error e =>
      rw [execStatementsAux] at hq
      simp only [hx] at hq
      rcases List.mem_cons.mp hq with rfl | hq2
      · simp [hx]
      · exact ih (i + 1) q hq2

/-- A failing statement at 0-based position `j` produces a warning log
carrying its 1-based index and the error text truncated to 100 characters. -/
lemma execAux_warning (ex : List Char → Except String Unit) :
    ∀ (stmts : List (List Char)) (i j : Nat) (hj : j < stmts.length) (e : String),
      ex (stmts.get ⟨j, hj⟩) = Except.error e →
      ScriptLog.warning (i + j) (e.take 100) ∈ (execStatementsAux ex i stmts).2 := by
  intro stmts
  induction stmts with
  | nil => intro i j hj; exact absurd hj (Nat.not_lt_zero j)
  | cons st rest ih =>
    intro i j hj e he
    cases j with
    | zero =>
      simp only [List.get] at he
      simp [execStatementsAux, he]
    | succ j =>
      have hj2 : j < rest.length := Nat.lt_of_succ_lt_succ hj
      have he2 : ex (rest.get ⟨j, hj2⟩) = Except.error e := by
        simpa [List.get] using he
      have hmem := ih (i + 1) j hj2 e he2
      have harith : i + (j + 1) = (i + 1) + j := by omega
      rw [harith]
      cases hx : ex st with
      | ok u => simpa [execStatementsAux, hx] using hmem
      | error e2 =>
        rw [execStatementsAux]
        simp only [hx]
        exact List.mem_cons_of_mem _ hmem

/-- C3: `execute_script` isolates per-statement failures: for every driver
behaviour and every script, it returns successfully (never an aggregate
error), every statement of the split is attempted in order, a statement is
recorded failed exactly when the driver failed it, and each failure only
contributes a warning log carrying its 1-based index and the error text
truncated to 100 characters. -/
theorem execute_script_isolates_failures (ex : List Char → Except String Unit)
    (content : List Char) (path : String) :
    ∃ att logs,
      execute_script ex content path =
        Except.ok (att, logs ++ [ScriptLog.completed path (split_statements content).length])
      ∧ att.map Prod.fst = split_statements content
      ∧ (∀ q ∈ att, q.2 = true ↔ ex q.1 = Except.ok ())
      ∧ ∀ (j : Nat) (hj : j < (split_statements content).length) (e : String),
          ex ((split_statements content).get ⟨j, hj⟩) = Except.error e →
          ScriptLog.warning (1 + j) (e.take 100) ∈ logs := by
  refine ⟨(execStatementsAux ex 1 (split_statements content)).1,
          (execStatementsAux ex 1 (split_statements content)).2,
          rfl,
          execAux_map_fst ex (split_statements content) 1,
          execAux_flag ex (split_statements content) 1,
          fun j hj e he => execAux_warning ex (split_statements content) 1 j hj e he⟩

/-- Witness for C3: `execute_script` applied to a concrete three-statement
script whose middle statement fails. -/
theorem execute_script_isolates_failures_witness :
    ∃ att logs,
      execute_script (fun st => if st = ("BAD;").data then Except.error "boom" else Except.ok ())
          ("SELECT 1;\nBAD;\nSELECT 3;").data "script.sql" =
        Except.ok (att, logs ++ [ScriptLog.completed "script.sql"
          (split_statements ("SELECT 1;\nBAD;\nSELECT 3;").data).length])
      ∧ att.map Prod.fst = split_statements ("SELECT 1;\nBAD;\nSELECT 3;").data
      ∧ (∀ q ∈ att, q.2 = true ↔
          (if q.1 = ("BAD;").data then Except.error "boom" else Except.ok ()) = Except.ok ())
      ∧ ∀ (j : Nat) (hj : j < (split_statements ("SELECT 1;\nBAD;\nSELECT 3;").data).length)
          (e : String),
          (if (split_statements ("SELECT 1;\nBAD;\nSELECT 3;").data).get ⟨j, hj⟩ = ("BAD;").data
            then Except.error "boom" else Except.ok ()) = Except.error e →
          ScriptLog.warning (1 + j) (e.take 100) ∈ logs :=
  execute_script_isolates_failures
    (fun st => if st = ("BAD;").data then Except.error "boom" else Except.ok ())
    ("SELECT 1;\nBAD;\nSELECT 3;").data "script.sql"

/-- C4 counterexample: `save_results` on a dict with requested format "csv"
does not fail at all — it writes the json file and reports no error — so the
claim that every data-kind/format combination outside the three supported
ones fails is false. -/
theorem save_results_dict_csv_succeeds :
    (save_results PyData.dict "results/out.csv" "csv").2 = none
    ∧ FsAction.writeJson "results/out.csv" ∈ (save_results PyData.dict "results/out.csv" "csv").1 := by
  decide

/-- C4 amended: `save_results` fails exactly when the data is tabular and the
format is neither "csv" nor "parquet", or the data is neither tabular nor a
mapping; mapping data is always written as json, the requested format never
being consulted. -/
theorem save_results_dispatch :
    ∀ (path file_format : String) (df : DataFrame),
      ((save_results (PyData.dataframe df) path file_format).2 ≠ none ↔
        (file_format ≠ "csv" ∧ file_format ≠ "parquet"))
      ∧ (save_results PyData.dict path file_format).2 = none
      ∧ (save_results PyData.other path file_format).2 ≠ none := by
  intro path fmt df
  refine ⟨?_, rfl, by simp [save_results]⟩
  by_cases h1 : fmt = "csv"
  · simp [save_results, h1]
  · by_cases h2 : fmt = "parquet"
    · simp [save_results, h1, h2]
    · simp [save_results, h1, h2]

/-- C5: with a non-empty expected-columns list, `validate_dataframe` fails
exactly when the set difference expected − actual is non-empty, and the
schema error names precisely that set. -/
theorem validate_dataframe_schema_error (df : DataFrame) (name : String)
    (ec : List String) (h : ec ≠ []) :
    ∀ m, (validate_dataframe df name (some ec)).2 = Except.error m ↔
      (m = ec.toFinset \ df.columns.toFinset ∧ ec.toFinset \ df.columns.toFinset ≠ ∅) := by
  intro m
  have hne : ¬ ec.isEmpty = true := by simpa [List.isEmpty_iff] using h
  by_cases hm : ec.toFinset \ df.columns.toFinset = ∅
  · simp [validate_dataframe, checkExpected, hne, hm]
  · have hres : (validate_dataframe df name (some ec)).2
        = Except.error (ec.toFinset \ df.columns.toFinset) := by
      simp [validate_dataframe, checkExpected, hne, hm]
    rw [hres]
    constructor
    · intro h1
      injection h1 with h2
      exact ⟨h2.symm, hm⟩
    · rintro ⟨rfl, _⟩
      rfl

/-- Witness for C5: expected columns a and b against a table with only
column a raises the schema error naming exactly the set containing b. -/
theorem validate_dataframe_schema_error_witness :
    (validate_dataframe ⟨["a"], []⟩ "t" (some ["a", "b"])).2 = Except.error {"b"} :=
  (validate_dataframe_schema_error ⟨["a"], []⟩ "t" ["a", "b"] (by decide) {"b"}).mpr
    (by constructor <;> decide)

/-- C7: for tabular data and any format other than "csv" and "parquet",
`save_results` fails with the unsupported-format error and performs no
filesystem action that writes a file at the destination path. -/
theorem save_results_dataframe_bad_format (df : DataFrame) (path file_format : String)
    (h1 : file_format ≠ "csv") (h2 : file_format ≠ "parquet") :
    (save_results (PyData.dataframe df) path file_format).2 =
      some ("Unsupported format for DataFrame: " ++ file_format)
    ∧ ∀ a ∈ (save_results (PyData.dataframe df) path file_format).1,
        writesTo a path = false := by
  constructor
  · simp [save_results, h1, h2]
  · intro a ha
    simp [save_results, h1, h2] at ha
    rw [ha]
    rfl

/-- Witness for C7: saving a DataFrame as "xml" errors and writes nothing at
the destination. -/
theorem save_results_dataframe_bad_format_witness :
    (save_results (PyData.dataframe ⟨[], []⟩) "results/out.xml" "xml").2 =
      some "Unsupported format for DataFrame: xml"
    ∧ ∀ a ∈ (save_results (PyData.dataframe ⟨[], []⟩) "results/out.xml" "xml").1,
        writesTo a "results/out.xml" = false :=
  ⟨(save_results_dataframe_bad_format ⟨[], []⟩ "results/out.xml" "xml"
      (by decide) (by decide)).1.trans (by decide),
   (save_results_dataframe_bad_format ⟨[], []⟩ "results/out.xml" "xml"
      (by decide) (by decide)).2⟩

/-- C8: `validate_dataframe` is purely observational — the table it returns
is the very table it was given, columns, rows and values unchanged, whether
or not a schema error is raised. -/
theorem validate_dataframe_preserves_table (df : DataFrame) (name : String)
    (expected_cols : Option (List String)) :
    (validate_dataframe df name expected_cols).1 = df := by
  unfold validate_dataframe
  cases checkExpected df expected_cols <;> rfl
